import Mathlib

/-!
Verification of the `critirs` library: a poisonable wrapper around the
Windows CRITICAL_SECTION recursive lock, with a reference-counted shared
lock (`CriticalSection`, src/crit.rs), a lazily-initialized static lock
(`CriticalStatic`, src/crit_static.rs) and an RAII entered guard
(`EnteredCritical`, src/common.rs).

The OS critical-section object is modelled as an abstract recursive lock
(owner thread, recursion depth, spin count) that additionally records the
history of OS-level init, leave and delete calls, so that exactly-once
properties about those calls can be stated.  Machine integers (DWORD,
u32) are modelled as `Nat`; the only use the code makes of them is the
zero / non-zero distinction and pass-through of spin counts.
-/

/-- Model of the OS CRITICAL_SECTION object (the "OS lock service" of the
spec).  `owner`/`recursion` model the recursive-lock state; `initCalls`
records every OS initialization call with the spin count it was given
(`none` for the plain `InitializeCriticalSection`); `leaveCalls` and
`deleteCalls` count OS leave and delete calls. -/
structure OsCritSec where
  owner : Option Nat
  recursion : Nat
  spinCount : Nat
  initCalls : List (Option Nat)
  leaveCalls : Nat
  deleteCalls : Nat
deriving DecidableEq

/-- src/common.rs `CRIT_ZEROED`: the zeroed CRITICAL_SECTION constant. -/
def CRIT_ZEROED : OsCritSec :=
  { owner := none, recursion := 0, spinCount := 0,
    initCalls := [], leaveCalls := 0, deleteCalls := 0 }

/-- Effect of one OS initialization call (plain or with spin count) on the
lock object: resets the lock state, sets the spin count, records the call. -/
def osInitCall (sc : Option Nat) (os : OsCritSec) : OsCritSec :=
  { os with
    owner := none, recursion := 0, spinCount := sc.getD 0,
    initCalls := os.initCalls ++ [sc] }

/-- OS EnterCriticalSection by thread `tid`: recursive acquire.  `none`
means the call blocks (the lock is held by another thread and this
sequential model cannot complete the call). -/
def osEnter (tid : Nat) (os : OsCritSec) : Option OsCritSec :=
  match os.owner with
  | none => some { os with owner := some tid, recursion := 1 }
  | some o =>
    if o = tid then some { os with recursion := os.recursion + 1 } else none

/-- OS TryEnterCriticalSection by thread `tid`: returns the DWORD result
(zero exactly when the lock is held by another thread) and the new state. -/
def osTryEnter (tid : Nat) (os : OsCritSec) : Nat × OsCritSec :=
  match os.owner with
  | none => (1, { os with owner := some tid, recursion := 1 })
  | some o =>
    if o = tid then (1, { os with recursion := os.recursion + 1 }) else (0, os)

/-- OS LeaveCriticalSection: releases one level of recursive ownership and
records the call. -/
def osLeave (os : OsCritSec) : OsCritSec :=
  { os with
    leaveCalls := os.leaveCalls + 1, recursion := os.recursion - 1,
    owner := if os.recursion ≤ 1 then none else os.owner }

/-- OS SetCriticalSectionSpinCount: returns the previous spin count. -/
def osSetSpinCount (n : Nat) (os : OsCritSec) : Nat × OsCritSec :=
  (os.spinCount, { os with spinCount := n })

/-- OS DeleteCriticalSection: records the delete call. -/
def osDelete (os : OsCritSec) : OsCritSec :=
  { os with deleteCalls := os.deleteCalls + 1 }

/-! ## src/wrapper.rs: the Rust-side wrappers over the C shim

The C functions `_c_init_cs` etc. are part of the repository but not under
src/, so their result is an oracle parameter `r : Nat` where the spec
allows failure. -/

/-- src/wrapper.rs `init_cs`: panics (modelled as `Except.error` with the
source's panic message) when the C call returns 0, otherwise performs the
OS initialization.  `r` is the DWORD result of `_c_init_cs`. -/
def init_cs (r : Nat) (os : OsCritSec) : Except String OsCritSec :=
  if r = 0 then Except.error "Failed to initialize critical section"
  else Except.ok (osInitCall none os)

/-- Modelled from the spec: the C shim `_c_init_cs_with_spin_count` is not
under src/ and the spec states "the spin-count variant is documented never
to fail", so its DWORD result is modelled as always non-zero. -/
def c_init_cs_with_spin_count_result (_spin_count : Nat) : Nat := 1

/-- src/wrapper.rs `init_cs_with_spin_count`: panics when the C call
returns 0 (a dead branch, since the spin-count OS call never fails),
otherwise performs the OS initialization with the given spin count. -/
def init_cs_with_spin_count (spin_count : Nat) (os : OsCritSec) :
    Except String OsCritSec :=
  if c_init_cs_with_spin_count_result spin_count = 0 then
    Except.error "Failed to initialize critical section"
  else Except.ok (osInitCall (some spin_count) os)

/-! ## src/common.rs: PoisonableCriticalSection and EnteredCritical -/

/-- src/common.rs `PoisonableCriticalSection`: the OS object plus the
poison flag. -/
structure PoisonableCriticalSection where
  critical : OsCritSec
  poison : Bool
deriving DecidableEq

/-- src/common.rs `POISONABLE_ZEROED`. -/
def POISONABLE_ZEROED : PoisonableCriticalSection :=
  { critical := CRIT_ZEROED, poison := false }

/-- src/common.rs `PoisonableCriticalSection::clear_poison_unsynced`. -/
def PoisonableCriticalSection.clear_poison_unsynced
    (s : PoisonableCriticalSection) : PoisonableCriticalSection :=
  { s with poison := false }

/-- Observable events of the guard's destructor, in program order. -/
inductive GuardEvent
  | poisonSet
  | leaveCall
deriving DecidableEq

/-- src/common.rs `Drop for EnteredCritical`: if the thread is unwinding
from a panic (`panicking`), write `true` to the poison flag; then, in
either case, perform the OS leave call.  Returns the new state and the
trace of observable events in order. -/
def EnteredCritical.dropGuard (panicking : Bool)
    (s : PoisonableCriticalSection) :
    PoisonableCriticalSection × List GuardEvent :=
  let step1 : PoisonableCriticalSection × List GuardEvent :=
    if panicking then ({ s with poison := true }, [GuardEvent.poisonSet])
    else (s, [])
  ({ step1.1 with critical := osLeave step1.1.critical },
    step1.2 ++ [GuardEvent.leaveCall])

/-- src/common.rs `EnteredCritical::leave`: `leave(self) { drop(self) }`. -/
def EnteredCritical.leave (panicking : Bool)
    (s : PoisonableCriticalSection) :
    PoisonableCriticalSection × List GuardEvent :=
  EnteredCritical.dropGuard panicking s

/-- src/common.rs `EnteredCritical::is_poisoned`. -/
def EnteredCritical.is_poisoned (s : PoisonableCriticalSection) : Bool :=
  s.poison

/-- src/common.rs `EnteredCritical::clear_poison`. -/
def EnteredCritical.clear_poison (s : PoisonableCriticalSection) :
    PoisonableCriticalSection :=
  { s with poison := false }

/-- src/common.rs `EnteredCritical::set_spin_count`. -/
def EnteredCritical.set_spin_count (n : Nat)
    (s : PoisonableCriticalSection) : Nat × PoisonableCriticalSection :=
  let r := osSetSpinCount n s.critical
  (r.1, { s with critical := r.2 })

/-! ## src/crit.rs: CriticalSection (the shared lock)

A `CriticalSection` value models the whole family of Arc-shared handles:
`strong` is the Arc strong count (the number of live handles) and `inner`
the shared PoisonableCriticalSection. -/

structure CriticalSection where
  strong : Nat
  inner : PoisonableCriticalSection
deriving DecidableEq

/-- src/crit.rs `CriticalSection::new`: allocates a zeroed object and runs
the plain OS initialization, which may fail fatally (`r` is the C shim's
DWORD result). -/
def CriticalSection.new (r : Nat) : Except String CriticalSection :=
  (init_cs r POISONABLE_ZEROED.critical).map fun os =>
    { strong := 1, inner := { critical := os, poison := false } }

/-- src/crit.rs `CriticalSection::with_spin_count`: allocates a zeroed
object and runs the spin-count OS initialization. -/
def CriticalSection.with_spin_count (spin_count : Nat) :
    Except String CriticalSection :=
  (init_cs_with_spin_count spin_count POISONABLE_ZEROED.critical).map fun os =>
    { strong := 1, inner := { critical := os, poison := false } }

/-- `Clone for CriticalSection` (derived): one more Arc strong reference. -/
def CriticalSection.clone (s : CriticalSection) : CriticalSection :=
  { s with strong := s.strong + 1 }

/-- src/crit.rs `CriticalSection::enter` (`none` = the call blocks). -/
def CriticalSection.enter (tid : Nat) (s : CriticalSection) :
    Option CriticalSection :=
  (osEnter tid s.inner.critical).map fun os =>
    { s with inner := { s.inner with critical := os } }

/-- src/crit.rs `CriticalSection::try_enter`: `0 => None`, otherwise
`Some` guard on the entered object (`some ()` marks the returned guard). -/
def CriticalSection.try_enter (tid : Nat) (s : CriticalSection) :
    Option Unit × CriticalSection :=
  let r := osTryEnter tid s.inner.critical
  if r.1 = 0 then (none, { s with inner := { s.inner with critical := r.2 } })
  else (some (), { s with inner := { s.inner with critical := r.2 } })

/-- src/crit.rs `CriticalSection::set_spin_count`. -/
def CriticalSection.set_spin_count (n : Nat) (s : CriticalSection) :
    Nat × CriticalSection :=
  let r := osSetSpinCount n s.inner.critical
  (r.1, { s with inner := { s.inner with critical := r.2 } })

/-- src/crit.rs `Drop for CriticalSection`: if this handle observes an Arc
strong count of 1 it deletes the OS object; in every case the Arc count
then decreases by one. -/
def CriticalSection.dropHandle (s : CriticalSection) : CriticalSection :=
  if s.strong = 1 then
    { strong := 0, inner := { s.inner with critical := osDelete s.inner.critical } }
  else { s with strong := s.strong - 1 }

/-- `j` successive handle drops. -/
def CriticalSection.dropN (j : Nat) (s : CriticalSection) : CriticalSection :=
  CriticalSection.dropHandle^[j] s

/-! ## src/crit_static.rs: CriticalStatic (the static lock)

The atomic `init` word takes the four states of the lazy-initialization
state machine (`UNINITIALIZED = 0`, `INITIALIZING = 1`, `INITIALIZED = 2`,
`POISONED = 3`). -/

inductive InitState
  | uninitialized
  | initializing
  | initialized
  | poisoned
deriving DecidableEq

/-- src/crit_static.rs `CriticalStatic`: the configured spin count (set
once at construction), the atomic initialization-state word, and the
poisonable OS object. -/
structure CriticalStatic where
  init_spin_count : Option Nat
  init : InitState
  inner : PoisonableCriticalSection
deriving DecidableEq

/-- src/crit_static.rs `CriticalStatic::new`. -/
def CriticalStatic.new : CriticalStatic :=
  { init_spin_count := none, init := InitState.uninitialized
    inner := POISONABLE_ZEROED }

/-- src/crit_static.rs `CriticalStatic::with_spin_count`. -/
def CriticalStatic.with_spin_count (spin_count : Nat) : CriticalStatic :=
  { init_spin_count := some spin_count, init := InitState.uninitialized
    inner := POISONABLE_ZEROED }

/-- src/crit_static.rs `CriticalStatic::init_once`, single-thread view.
`r` is the oracle result of the C shim's plain init call.  The outer
`Option` is `none` when the call never returns (the spin loop observes
INITIALIZING forever, which a single caller cannot resolve); `Except`
errors model panics and carry the state left behind (the `PoisonCatcher`
guard stores POISONED when OS initialization unwinds). -/
def CriticalStatic.init_once (r : Nat) (s : CriticalStatic) :
    Option (Except (String × CriticalStatic) CriticalStatic) :=
  match s.init with
  | InitState.initialized => some (Except.ok s)
  | InitState.uninitialized =>
    match s.init_spin_count with
    | some sc =>
      match init_cs_with_spin_count sc s.inner.critical with
      | Except.ok os =>
        some (Except.ok { s with
          init := InitState.initialized
          inner := { s.inner with critical := os } })
      | Except.error e =>
        some (Except.error (e, { s with init := InitState.poisoned }))
    | none =>
      match init_cs r s.inner.critical with
      | Except.ok os =>
        some (Except.ok { s with
          init := InitState.initialized
          inner := { s.inner with critical := os } })
      | Except.error e =>
        some (Except.error (e, { s with init := InitState.poisoned }))
  | InitState.poisoned =>
    some (Except.error ("Critical Section init failed", s))
  | InitState.initializing => none

/-- src/crit_static.rs `CriticalStatic::enter`: `init_once` then the OS
enter call (inner `none` would mean the enter call blocks forever, which
cannot happen to a lone caller; kept for shape fidelity with `osEnter`). -/
def CriticalStatic.enter (tid r : Nat) (s : CriticalStatic) :
    Option (Except (String × CriticalStatic) CriticalStatic) :=
  (s.init_once r).bind fun e =>
    match e with
    | Except.error p => some (Except.error p)
    | Except.ok s1 =>
      (osEnter tid s1.inner.critical).map fun os =>
        Except.ok { s1 with inner := { s1.inner with critical := os } }

/-- src/crit_static.rs `CriticalStatic::try_enter`: `init_once` then the
OS try-enter call; `0 => None`, otherwise `Some` guard. -/
def CriticalStatic.try_enter (tid r : Nat) (s : CriticalStatic) :
    Option (Except (String × CriticalStatic) (Option Unit × CriticalStatic)) :=
  (s.init_once r).map fun e =>
    match e with
    | Except.error p => Except.error p
    | Except.ok s1 =>
      let t := osTryEnter tid s1.inner.critical
      if t.1 = 0 then
        Except.ok (none, { s1 with inner := { s1.inner with critical := t.2 } })
      else
        Except.ok (some (), { s1 with inner := { s1.inner with critical := t.2 } })

/-- src/crit_static.rs `CriticalStatic::set_spin_count`: `init_once` then
the OS spin-count call, returning the previous value. -/
def CriticalStatic.set_spin_count (n r : Nat) (s : CriticalStatic) :
    Option (Except (String × CriticalStatic) (Nat × CriticalStatic)) :=
  (s.init_once r).map fun e =>
    match e with
    | Except.error p => Except.error p
    | Except.ok s1 =>
      let t := osSetSpinCount n s1.inner.critical
      Except.ok (t.1, { s1 with inner := { s1.inner with critical := t.2 } })

/-- src/crit_static.rs `CriticalStatic::get_ref`: `init_once`, then hand
out the Init typestate reference (modelled as the lock state it borrows). -/
def CriticalStatic.get_ref (r : Nat) (s : CriticalStatic) :
    Option (Except (String × CriticalStatic) CriticalStatic) :=
  (s.init_once r).map fun e =>
    match e with
    | Except.error p => Except.error p
    | Except.ok s1 => Except.ok s1

/-- src/crit_static.rs `CriticalStatic::delete` (unsafe): the OS delete
call; nothing else is touched (`assume_uninit` only re-tags). -/
def CriticalStatic.delete (s : CriticalStatic) : CriticalStatic :=
  { s with inner := { s.inner with critical := osDelete s.inner.critical } }

/-- src/crit_static.rs `CriticalStatic::init` (unsafe): clears the poison
flag (unsynced), then runs the plain OS initialization, which may panic
(oracle `r`).  The atomic `init` word is not touched. -/
def CriticalStatic.unsafe_init (r : Nat) (s : CriticalStatic) :
    Except String CriticalStatic :=
  let s1 := { s with inner := s.inner.clear_poison_unsynced }
  (init_cs r s1.inner.critical).map fun os =>
    { s1 with inner := { s1.inner with critical := os } }

/-- src/crit_static.rs `CriticalStatic::init_with_spin_count` (unsafe):
clears the poison flag (unsynced), runs the spin-count OS initialization,
and then ends with `self.get_ref()`, which runs `init_once`: on a
POISONED init word this panics, and on an UNINITIALIZED word it wins the
compare-exchange, runs a second OS initialization (with the
construction-time spin count) and stores INITIALIZED.  `r` is the oracle
result of the plain OS init call that `init_once` may perform. -/
def CriticalStatic.unsafe_init_with_spin_count (spin_count r : Nat)
    (s : CriticalStatic) :
    Option (Except (String × CriticalStatic) CriticalStatic) :=
  let s1 := { s with inner := s.inner.clear_poison_unsynced }
  match init_cs_with_spin_count spin_count s1.inner.critical with
  | Except.error e => some (Except.error (e, s1))
  | Except.ok os =>
    CriticalStatic.get_ref r { s1 with inner := { s1.inner with critical := os } }

/-! ## src/crit_static.rs: CriticalStaticRef

An Init typestate reference borrows the same static lock state; its
operations run with no initialization-state check.  We model a reference
by the lock state it points to. -/

/-- src/crit_static.rs `CriticalStaticRef::<Init>::enter`. -/
def CriticalStaticRef.enter (tid : Nat) (s : CriticalStatic) :
    Option CriticalStatic :=
  (osEnter tid s.inner.critical).map fun os =>
    { s with inner := { s.inner with critical := os } }

/-- src/crit_static.rs `CriticalStaticRef::<Init>::try_enter`. -/
def CriticalStaticRef.try_enter (tid : Nat) (s : CriticalStatic) :
    Option Unit × CriticalStatic :=
  let t := osTryEnter tid s.inner.critical
  if t.1 = 0 then (none, { s with inner := { s.inner with critical := t.2 } })
  else (some (), { s with inner := { s.inner with critical := t.2 } })

/-- src/crit_static.rs `CriticalStaticRef::<Init>::set_spin_count`. -/
def CriticalStaticRef.set_spin_count (n : Nat) (s : CriticalStatic) :
    Nat × CriticalStatic :=
  let t := osSetSpinCount n s.inner.critical
  (t.1, { s with inner := { s.inner with critical := t.2 } })

/-- src/crit_static.rs `CriticalStaticRef::<Init>::delete` (unsafe). -/
def CriticalStaticRef.delete (s : CriticalStatic) : CriticalStatic :=
  { s with inner := { s.inner with critical := osDelete s.inner.critical } }

/-- src/crit_static.rs `CriticalStaticRef::<Uninit>::init`: clears poison
(unsynced), runs plain OS init (oracle `r`), yields an Init reference. -/
def CriticalStaticRef.init (r : Nat) (s : CriticalStatic) :
    Except String CriticalStatic :=
  let s1 := { s with inner := s.inner.clear_poison_unsynced }
  (init_cs r s1.inner.critical).map fun os =>
    { s1 with inner := { s1.inner with critical := os } }

/-- src/crit_static.rs `CriticalStaticRef::<Uninit>::init_with_spin_count`. -/
def CriticalStaticRef.init_with_spin_count (spin_count : Nat)
    (s : CriticalStatic) : Except String CriticalStatic :=
  let s1 := { s with inner := s.inner.clear_poison_unsynced }
  (init_cs_with_spin_count spin_count s1.inner.critical).map fun os =>
    { s1 with inner := { s1.inner with critical := os } }

/-! ## Operation alphabet over one PoisonableCriticalSection (for the
poison life-cycle claims): every safe operation the library can perform
on the shared object, including guard destruction. -/

inductive LockOp
  | enterOp (tid : Nat)
  | tryEnterOp (tid : Nat)
  | setSpinOp (n : Nat)
  | isPoisonedOp
  | clearPoisonOp
  | guardDrop (panicking : Bool)
deriving DecidableEq

/-- State effect of one operation on the shared object.  A blocked
`enter` leaves the state unchanged (the effect happens when it returns). -/
def applyOp (op : LockOp) (s : PoisonableCriticalSection) :
    PoisonableCriticalSection :=
  match op with
  | LockOp.enterOp tid =>
    match osEnter tid s.critical with
    | some os => { s with critical := os }
    | none => s
  | LockOp.tryEnterOp tid => { s with critical := (osTryEnter tid s.critical).2 }
  | LockOp.setSpinOp n => { s with critical := (osSetSpinCount n s.critical).2 }
  | LockOp.isPoisonedOp => s
  | LockOp.clearPoisonOp => EnteredCritical.clear_poison s
  | LockOp.guardDrop panicking => (EnteredCritical.dropGuard panicking s).1

/-- Sequential application of a list of operations. -/
def applyOps (ops : List LockOp) (s : PoisonableCriticalSection) :
    PoisonableCriticalSection :=
  ops.foldl (fun u op => applyOp op u) s

/-! ## The concurrent init-once machine (src/crit_static.rs `init_once`)

Each thread executing `init_once` is at one of these program points;
threads interleave atomically at the atomic load / compare-exchange /
store instructions exactly as the source performs them. -/

inductive PC
  | idle
  | atCAS
  | atOsInit
  | atStore
  | spinWait
  | done
  | panicked
deriving DecidableEq

/-- Global machine state: the static lock, a ghost counter of won
compare-exchanges (initialization attempts), and every thread's program
counter. -/
structure Sys where
  stat : CriticalStatic
  attempts : Nat
  pcs : Nat → PC

/-- Update one thread's program counter. -/
def setPC (s : Sys) (t : Nat) (pc : PC) : Sys :=
  { s with pcs := fun u => if u = t then pc else s.pcs u }

/-- One interleaved step of `CriticalStatic::init_once` by thread `t`:
the initial acquire load; the UNINITIALIZED-to-INITIALIZING
compare-exchange (win and lose); the winner's OS initialization (normal
return appends the OS init call with the configured spin count; an unwind
is caught by the `PoisonCatcher` drop which stores POISONED); the
winner's release store of INITIALIZED; and the losers' spin loop, which
re-loads the state and exits only at INITIALIZED (proceed) or POISONED
(panic). -/
inductive Step : Nat → Sys → Sys → Prop
  | loadInit (t : Nat) (s : Sys) (h : s.pcs t = PC.idle)
      (hi : s.stat.init = InitState.initialized) :
      Step t s (setPC s t PC.done)
  | loadNotInit (t : Nat) (s : Sys) (h : s.pcs t = PC.idle)
      (hi : s.stat.init ≠ InitState.initialized) :
      Step t s (setPC s t PC.atCAS)
  | casWin (t : Nat) (s : Sys) (h : s.pcs t = PC.atCAS)
      (hi : s.stat.init = InitState.uninitialized) :
      Step t s (setPC
        { s with
          stat := { s.stat with init := InitState.initializing },
          attempts := s.attempts + 1 } t PC.atOsInit)
  | casLose (t : Nat) (s : Sys) (h : s.pcs t = PC.atCAS)
      (hi : s.stat.init ≠ InitState.uninitialized) :
      Step t s (setPC s t PC.spinWait)
  | osInitOk (t : Nat) (s : Sys) (h : s.pcs t = PC.atOsInit) :
      Step t s (setPC
        { s with
          stat := { s.stat with
            inner := { s.stat.inner with
              critical := osInitCall s.stat.init_spin_count
                s.stat.inner.critical } } } t PC.atStore)
  | osInitPanic (t : Nat) (s : Sys) (h : s.pcs t = PC.atOsInit) :
      Step t s (setPC
        { s with stat := { s.stat with init := InitState.poisoned } }
        t PC.panicked)
  | storeInit (t : Nat) (s : Sys) (h : s.pcs t = PC.atStore) :
      Step t s (setPC
        { s with stat := { s.stat with init := InitState.initialized } }
        t PC.done)
  | spinSeeInit (t : Nat) (s : Sys) (h : s.pcs t = PC.spinWait)
      (hi : s.stat.init = InitState.initialized) :
      Step t s (setPC s t PC.done)
  | spinSeePoison (t : Nat) (s : Sys) (h : s.pcs t = PC.spinWait)
      (hi : s.stat.init = InitState.poisoned) :
      Step t s (setPC s t PC.panicked)
  | spinAgain (t : Nat) (s : Sys) (h : s.pcs t = PC.spinWait)
      (h1 : s.stat.init ≠ InitState.initialized)
      (h2 : s.stat.init ≠ InitState.poisoned) :
      Step t s s

/-- All threads idle, nothing attempted yet. -/
def sys0 (c : CriticalStatic) : Sys :=
  { stat := c, attempts := 0, pcs := fun _ => PC.idle }

/-- States reachable by any number of threads racing through `init_once`
on a freshly constructed static lock with configured spin count `cfg`. -/
inductive Reaches : Option Nat → Sys → Prop
  | baseNew : Reaches none (sys0 CriticalStatic.new)
  | baseSpin (sc : Nat) :
      Reaches (some sc) (sys0 (CriticalStatic.with_spin_count sc))
  | step (cfg : Option Nat) (t : Nat) (s s1 : Sys) :
      Reaches cfg s → Step t s s1 → Reaches cfg s1

/-- Inductive invariant of the init-once machine. -/
structure MachineInv (cfg : Option Nat) (s : Sys) : Prop where
  cfgEq : s.stat.init_spin_count = cfg
  attemptsLe : s.attempts ≤ 1
  attemptsZero : s.stat.init = InitState.uninitialized ↔ s.attempts = 0
  winnerInit : ∀ t, s.pcs t = PC.atOsInit ∨ s.pcs t = PC.atStore →
    s.stat.init = InitState.initializing
  winnerUniq : ∀ t u, s.pcs t = PC.atOsInit ∨ s.pcs t = PC.atStore →
    s.pcs u = PC.atOsInit ∨ s.pcs u = PC.atStore → t = u
  doneInit : ∀ t, s.pcs t = PC.done → s.stat.init = InitState.initialized
  callsNilAtOsInit : ∀ t, s.pcs t = PC.atOsInit →
    s.stat.inner.critical.initCalls = []
  callsAtStore : ∀ t, s.pcs t = PC.atStore →
    s.stat.inner.critical.initCalls = [cfg]
  callsLen : s.stat.inner.critical.initCalls.length ≤ 1
  callsCfg : ∀ c ∈ s.stat.inner.critical.initCalls, c = cfg
  callsUninit : s.stat.init = InitState.uninitialized →
    s.stat.inner.critical.initCalls = []
  callsInit : s.stat.init = InitState.initialized →
    s.stat.inner.critical.initCalls = [cfg]

/-! Concrete demonstration run of the machine: one thread performs the
whole winner path (and, separately, the unwind path) on a lock
constructed with spin count 7. -/

def demoSys0 : Sys := sys0 (CriticalStatic.with_spin_count 7)

def demoSys1 : Sys := setPC demoSys0 0 PC.atCAS

def demoSys2 : Sys :=
  setPC
    { demoSys1 with
      stat := { demoSys1.stat with init := InitState.initializing },
      attempts := demoSys1.attempts + 1 } 0 PC.atOsInit

def demoSys3 : Sys :=
  setPC
    { demoSys2 with
      stat := { demoSys2.stat with
        inner := { demoSys2.stat.inner with
          critical := osInitCall demoSys2.stat.init_spin_count
            demoSys2.stat.inner.critical } } } 0 PC.atStore

def demoSys4 : Sys :=
  setPC
    { demoSys3 with
      stat := { demoSys3.stat with init := InitState.initialized } }
    0 PC.done

def demoPoisonSys : Sys :=
  setPC
    { demoSys2 with
      stat := { demoSys2.stat with init := InitState.poisoned } }
    0 PC.panicked

/-- A static lock that has completed initialization, with a poisoned
flag, for witnesses. -/
def demoInitStatic : CriticalStatic :=
  { init_spin_count := none, init := InitState.initialized,
    inner := POISONABLE_ZEROED }


/-- A shared lock currently held by thread 5, for witnesses. -/
def demoHeldCS : CriticalSection :=
  { strong := 1,
    inner := { critical := { CRIT_ZEROED with owner := some 5, recursion := 1 },
               poison := false } }

/-- An initialized static lock whose poison flag is set, for witnesses. -/
def demoPoisonedStatic : CriticalStatic :=
  { init_spin_count := none, init := InitState.initialized,
    inner := { critical := CRIT_ZEROED, poison := true } }


/-! ## Theorems -/

/-- Helper for C4: as long as more than `j` handles remain, `j` drops only
decrement the Arc strong count and leave the shared object (in particular
its delete-call count) untouched. -/
theorem CriticalSection.dropN_of_lt (j : Nat) :
    ∀ s : CriticalSection, j < s.strong →
      (CriticalSection.dropN j s).strong = s.strong - j ∧
      (CriticalSection.dropN j s).inner = s.inner := by
  induction j with
  | zero => intro s _; simp [CriticalSection.dropN]
  | succ n ih =>
    intro s h
    have h1 : ¬ s.strong = 1 := by omega
    have e : CriticalSection.dropN (n + 1) s
        = CriticalSection.dropN n (CriticalSection.dropHandle s) := by
      simp [CriticalSection.dropN, Function.iterate_succ_apply]
    have hd : CriticalSection.dropHandle s = { s with strong := s.strong - 1 } := by
      simp [CriticalSection.dropHandle, h1]
    have hn : n < (CriticalSection.dropHandle s).strong := by
      rw [hd]; simp; omega
    have := ih (CriticalSection.dropHandle s) hn
    rw [e]
    refine ⟨?_, ?_⟩
    · rw [this.1, hd]; simp; omega
    · rw [this.2, hd]

/-- C2: When an Entered Guard is destroyed (explicitly via `leave()` or by
going out of scope), the underlying OS leave call is performed exactly
once; if the thread is unwinding from a panic the poison flag is set to
true before that leave call, otherwise the poison flag is left
unchanged; and `leave()` is exactly the destruction path. -/
theorem enteredCritical_drop_leaves_exactly_once
    (panicking : Bool) (s : PoisonableCriticalSection) :
    ((EnteredCritical.dropGuard panicking s).2.count GuardEvent.leaveCall = 1) ∧
    ((EnteredCritical.dropGuard panicking s).1.critical.leaveCalls
        = s.critical.leaveCalls + 1) ∧
    (panicking = true →
      (EnteredCritical.dropGuard panicking s).2
          = [GuardEvent.poisonSet, GuardEvent.leaveCall] ∧
      (EnteredCritical.dropGuard panicking s).1.poison = true) ∧
    (panicking = false →
      (EnteredCritical.dropGuard panicking s).2 = [GuardEvent.leaveCall] ∧
      (EnteredCritical.dropGuard panicking s).1.poison = s.poison) ∧
    EnteredCritical.leave panicking s = EnteredCritical.dropGuard panicking s := by
  cases panicking <;>
    simp [EnteredCritical.dropGuard, EnteredCritical.leave, osLeave,
      List.count_cons, List.count_nil]

/-- C2 witness: concrete instance at `panicking = true` on the zeroed
object. -/
theorem enteredCritical_drop_leaves_exactly_once_witness :
    ((EnteredCritical.dropGuard true POISONABLE_ZEROED).2.count
        GuardEvent.leaveCall = 1) ∧
    ((EnteredCritical.dropGuard true POISONABLE_ZEROED).1.critical.leaveCalls
        = POISONABLE_ZEROED.critical.leaveCalls + 1) ∧
    (true = true →
      (EnteredCritical.dropGuard true POISONABLE_ZEROED).2
          = [GuardEvent.poisonSet, GuardEvent.leaveCall] ∧
      (EnteredCritical.dropGuard true POISONABLE_ZEROED).1.poison = true) ∧
    (true = false →
      (EnteredCritical.dropGuard true POISONABLE_ZEROED).2 = [GuardEvent.leaveCall] ∧
      (EnteredCritical.dropGuard true POISONABLE_ZEROED).1.poison
          = POISONABLE_ZEROED.poison) ∧
    EnteredCritical.leave true POISONABLE_ZEROED
        = EnteredCritical.dropGuard true POISONABLE_ZEROED :=
  enteredCritical_drop_leaves_exactly_once true POISONABLE_ZEROED

/-- C4: for a Shared Lock duplicated into `K` handles, the OS object is
deleted exactly once, precisely when the last (`K`-th) handle is dropped:
the first `j < K` drops perform no delete, and the `K`-th drop performs
exactly one. -/
theorem criticalSection_delete_exactly_once
    (K j : Nat) (s : CriticalSection) (hK : 1 ≤ K) (hs : s.strong = K) :
    (j < K →
      (CriticalSection.dropN j s).strong = K - j ∧
      (CriticalSection.dropN j s).inner.critical.deleteCalls
          = s.inner.critical.deleteCalls) ∧
    (CriticalSection.dropN K s).strong = 0 ∧
    (CriticalSection.dropN K s).inner.critical.deleteCalls
        = s.inner.critical.deleteCalls + 1 := by
  constructor
  · intro hj
    have := CriticalSection.dropN_of_lt j s (by omega)
    refine ⟨by rw [this.1, hs], by rw [this.2]⟩
  · have hKs : K = (K - 1) + 1 := by omega
    have hlt : K - 1 < s.strong := by omega
    have hpre := CriticalSection.dropN_of_lt (K - 1) s hlt
    have hone : (CriticalSection.dropN (K - 1) s).strong = 1 := by
      rw [hpre.1, hs]; omega
    have e : CriticalSection.dropN K s
        = CriticalSection.dropHandle (CriticalSection.dropN (K - 1) s) := by
      conv_lhs => rw [hKs]
      simp [CriticalSection.dropN, Function.iterate_succ_apply']
    rw [e]
    simp [CriticalSection.dropHandle, hone, osDelete, hpre.2]

/-- C4 witness: three handles; two drops delete nothing, the third drop
deletes exactly once. -/
theorem criticalSection_delete_exactly_once_witness :
    (2 < 3 →
      (CriticalSection.dropN 2 { strong := 3, inner := POISONABLE_ZEROED }).strong = 3 - 2 ∧
      (CriticalSection.dropN 2 { strong := 3, inner := POISONABLE_ZEROED }).inner.critical.deleteCalls
          = POISONABLE_ZEROED.critical.deleteCalls) ∧
    (CriticalSection.dropN 3 { strong := 3, inner := POISONABLE_ZEROED }).strong = 0 ∧
    (CriticalSection.dropN 3 { strong := 3, inner := POISONABLE_ZEROED }).inner.critical.deleteCalls
        = POISONABLE_ZEROED.critical.deleteCalls + 1 :=
  criticalSection_delete_exactly_once 3 2
    { strong := 3, inner := POISONABLE_ZEROED } (by decide) rfl

/-- C5: the spin-count construction variant never fails:
`init_cs_with_spin_count` always returns the initialized object and
`CriticalSection::with_spin_count` always succeeds, whereas the plain
`init_cs` (and hence `CriticalSection::new`) fails fatally when the OS
initialization call reports failure (returns 0). -/
theorem with_spin_count_never_fails (sc : Nat) (os : OsCritSec) :
    (init_cs_with_spin_count sc os = Except.ok (osInitCall (some sc) os)) ∧
    (CriticalSection.with_spin_count sc
        = Except.ok { strong := 1
                      inner := { critical := osInitCall (some sc) CRIT_ZEROED
                                 poison := false } }) ∧
    (init_cs 0 os = Except.error "Failed to initialize critical section") ∧
    (CriticalSection.new 0 = Except.error "Failed to initialize critical section") := by
  refine ⟨?_, ?_, ?_, ?_⟩
  · simp [init_cs_with_spin_count, c_init_cs_with_spin_count_result]
  · simp [CriticalSection.with_spin_count, init_cs_with_spin_count,
      c_init_cs_with_spin_count_result, POISONABLE_ZEROED, Except.map]
  · simp [init_cs]
  · simp [CriticalSection.new, init_cs, Except.map]

theorem setPC_pcs (s : Sys) (t u : Nat) (pc : PC) :
    (setPC s t pc).pcs u = if u = t then pc else s.pcs u := rfl

/-- Steps that only move a thread to a PC outside the winner section
(and to `done` only under an INITIALIZED state) preserve the invariant. -/
theorem machineInv_setPC (cfg : Option Nat) (s : Sys) (t : Nat) (pc : PC)
    (inv : MachineInv cfg s)
    (h1 : pc ≠ PC.atOsInit) (h2 : pc ≠ PC.atStore)
    (h3 : pc = PC.done → s.stat.init = InitState.initialized) :
    MachineInv cfg (setPC s t pc) := by
  refine ⟨inv.cfgEq, inv.attemptsLe, inv.attemptsZero, ?_, ?_, ?_, ?_, ?_,
    inv.callsLen, inv.callsCfg, inv.callsUninit, inv.callsInit⟩
  · intro u hu
    rw [setPC_pcs] at hu
    by_cases hut : u = t
    · simp [hut] at hu
      rcases hu with hu | hu
      · exact absurd hu h1
      · exact absurd hu h2
    · simp [hut] at hu
      exact inv.winnerInit u hu
  · intro u v hu hv
    rw [setPC_pcs] at hu
    rw [setPC_pcs] at hv
    by_cases hut : u = t
    · simp [hut] at hu
      rcases hu with hu | hu
      · exact absurd hu h1
      · exact absurd hu h2
    · by_cases hvt : v = t
      · simp [hvt] at hv
        rcases hv with hv | hv
        · exact absurd hv h1
        · exact absurd hv h2
      · simp [hut] at hu
        simp [hvt] at hv
        exact inv.winnerUniq u v hu hv
  · intro u hu
    rw [setPC_pcs] at hu
    by_cases hut : u = t
    · simp [hut] at hu
      exact h3 hu
    · simp [hut] at hu
      exact inv.doneInit u hu
  · intro u hu
    rw [setPC_pcs] at hu
    by_cases hut : u = t
    · simp [hut] at hu
      exact absurd hu h1
    · simp [hut] at hu
      exact inv.callsNilAtOsInit u hu
  · intro u hu
    rw [setPC_pcs] at hu
    by_cases hut : u = t
    · simp [hut] at hu
      exact absurd hu h2
    · simp [hut] at hu
      exact inv.callsAtStore u hu

/-- Preservation across the won compare-exchange. -/
theorem machineInv_casWin (cfg : Option Nat) (s : Sys) (t : Nat)
    (inv : MachineInv cfg s) (hi : s.stat.init = InitState.uninitialized) :
    MachineInv cfg (setPC
      { s with
        stat := { s.stat with init := InitState.initializing },
        attempts := s.attempts + 1 } t PC.atOsInit) := by
  have ha0 : s.attempts = 0 := inv.attemptsZero.mp hi
  refine ⟨inv.cfgEq, ?_, ?_, ?_, ?_, ?_, ?_, ?_, inv.callsLen, inv.callsCfg,
    ?_, ?_⟩
  · show s.attempts + 1 ≤ 1
    omega
  · show InitState.initializing = InitState.uninitialized ↔ s.attempts + 1 = 0
    constructor
    · intro hx; cases hx
    · intro hx; omega
  · intro u _
    rfl
  · intro u v hu hv
    rw [setPC_pcs] at hu
    rw [setPC_pcs] at hv
    by_cases hut : u = t
    · by_cases hvt : v = t
      · rw [hut, hvt]
      · simp [hvt] at hv
        have hw := inv.winnerInit v hv
        rw [hw] at hi; cases hi
    · simp [hut] at hu
      have hw := inv.winnerInit u hu
      rw [hw] at hi; cases hi
  · intro u hu
    rw [setPC_pcs] at hu
    by_cases hut : u = t
    · simp [hut] at hu
    · simp [hut] at hu
      have hw := inv.doneInit u hu
      rw [hw] at hi; cases hi
  · intro u _
    show s.stat.inner.critical.initCalls = []
    exact inv.callsUninit hi
  · intro u hu
    rw [setPC_pcs] at hu
    by_cases hut : u = t
    · simp [hut] at hu
    · simp [hut] at hu
      have hw := inv.winnerInit u (Or.inr hu)
      rw [hw] at hi; cases hi
  · intro hx
    cases hx
  · intro hx
    cases hx

/-- Preservation across the winner's successful OS initialization call. -/
theorem machineInv_osInitOk (cfg : Option Nat) (s : Sys) (t : Nat)
    (inv : MachineInv cfg s) (h : s.pcs t = PC.atOsInit) :
    MachineInv cfg (setPC
      { s with
        stat := { s.stat with
          inner := { s.stat.inner with
            critical := osInitCall s.stat.init_spin_count
              s.stat.inner.critical } } } t PC.atStore) := by
  have hinit : s.stat.init = InitState.initializing := inv.winnerInit t (Or.inl h)
  have hnil : s.stat.inner.critical.initCalls = [] := inv.callsNilAtOsInit t h
  have hc : s.stat.init_spin_count = cfg := inv.cfgEq
  have ecalls : (osInitCall s.stat.init_spin_count s.stat.inner.critical).initCalls
      = s.stat.inner.critical.initCalls ++ [s.stat.init_spin_count] := rfl
  refine ⟨inv.cfgEq, inv.attemptsLe, inv.attemptsZero, ?_, ?_, ?_, ?_, ?_,
    ?_, ?_, ?_, ?_⟩
  · intro u _
    exact hinit
  · intro u v hu hv
    rw [setPC_pcs] at hu
    rw [setPC_pcs] at hv
    by_cases hut : u = t
    · by_cases hvt : v = t
      · rw [hut, hvt]
      · simp [hvt] at hv
        exact absurd (inv.winnerUniq v t hv (Or.inl h)) hvt
    · simp [hut] at hu
      exact absurd (inv.winnerUniq u t hu (Or.inl h)) hut
  · intro u hu
    rw [setPC_pcs] at hu
    by_cases hut : u = t
    · simp [hut] at hu
    · simp [hut] at hu
      exact inv.doneInit u hu
  · intro u hu
    rw [setPC_pcs] at hu
    by_cases hut : u = t
    · simp [hut] at hu
    · simp [hut] at hu
      exact absurd (inv.winnerUniq u t (Or.inl hu) (Or.inl h)) hut
  · intro u _
    show (osInitCall s.stat.init_spin_count s.stat.inner.critical).initCalls = [cfg]
    rw [ecalls, hnil, hc]
    rfl
  · show (osInitCall s.stat.init_spin_count s.stat.inner.critical).initCalls.length ≤ 1
    rw [ecalls, hnil]
    simp
  · intro c hmem
    have hmem2 : c ∈ s.stat.inner.critical.initCalls ++ [s.stat.init_spin_count] :=
      hmem
    rw [hnil] at hmem2
    simp at hmem2
    rw [hmem2]
    exact hc
  · intro hx
    have hx2 : s.stat.init = InitState.uninitialized := hx
    rw [hinit] at hx2; cases hx2
  · intro hx
    have hx2 : s.stat.init = InitState.initialized := hx
    rw [hinit] at hx2; cases hx2

/-- Preservation across the winner's unwind (the PoisonCatcher stores
POISONED). -/
theorem machineInv_osInitPanic (cfg : Option Nat) (s : Sys) (t : Nat)
    (inv : MachineInv cfg s) (h : s.pcs t = PC.atOsInit) :
    MachineInv cfg (setPC
      { s with stat := { s.stat with init := InitState.poisoned } }
      t PC.panicked) := by
  have hinit : s.stat.init = InitState.initializing := inv.winnerInit t (Or.inl h)
  refine ⟨inv.cfgEq, inv.attemptsLe, ?_, ?_, ?_, ?_, ?_, ?_, inv.callsLen,
    inv.callsCfg, ?_, ?_⟩
  · show InitState.poisoned = InitState.uninitialized ↔ s.attempts = 0
    constructor
    · intro hx; cases hx
    · intro hx
      have hx2 := inv.attemptsZero.mpr hx
      rw [hinit] at hx2; cases hx2
  · intro u hu
    rw [setPC_pcs] at hu
    by_cases hut : u = t
    · simp [hut] at hu
    · simp [hut] at hu
      exact absurd (inv.winnerUniq u t hu (Or.inl h)) hut
  · intro u v hu hv
    rw [setPC_pcs] at hu
    rw [setPC_pcs] at hv
    by_cases hut : u = t
    · simp [hut] at hu
    · simp [hut] at hu
      exact absurd (inv.winnerUniq u t hu (Or.inl h)) hut
  · intro u hu
    rw [setPC_pcs] at hu
    by_cases hut : u = t
    · simp [hut] at hu
    · simp [hut] at hu
      have hd := inv.doneInit u hu
      rw [hinit] at hd; cases hd
  · intro u hu
    rw [setPC_pcs] at hu
    by_cases hut : u = t
    · simp [hut] at hu
    · simp [hut] at hu
      exact absurd (inv.winnerUniq u t (Or.inl hu) (Or.inl h)) hut
  · intro u hu
    rw [setPC_pcs] at hu
    by_cases hut : u = t
    · simp [hut] at hu
    · simp [hut] at hu
      exact absurd (inv.winnerUniq u t (Or.inr hu) (Or.inl h)) hut
  · intro hx
    cases hx
  · intro hx
    cases hx

/-- Preservation across the winner's release store of INITIALIZED. -/
theorem machineInv_storeInit (cfg : Option Nat) (s : Sys) (t : Nat)
    (inv : MachineInv cfg s) (h : s.pcs t = PC.atStore) :
    MachineInv cfg (setPC
      { s with stat := { s.stat with init := InitState.initialized } }
      t PC.done) := by
  have hinit : s.stat.init = InitState.initializing := inv.winnerInit t (Or.inr h)
  have hcalls : s.stat.inner.critical.initCalls = [cfg] := inv.callsAtStore t h
  refine ⟨inv.cfgEq, inv.attemptsLe, ?_, ?_, ?_, ?_, ?_, ?_, inv.callsLen,
    inv.callsCfg, ?_, ?_⟩
  · show InitState.initialized = InitState.uninitialized ↔ s.attempts = 0
    constructor
    · intro hx; cases hx
    · intro hx
      have hx2 := inv.attemptsZero.mpr hx
      rw [hinit] at hx2; cases hx2
  · intro u hu
    rw [setPC_pcs] at hu
    by_cases hut : u = t
    · simp [hut] at hu
    · simp [hut] at hu
      exact absurd (inv.winnerUniq u t hu (Or.inr h)) hut
  · intro u v hu hv
    rw [setPC_pcs] at hu
    rw [setPC_pcs] at hv
    by_cases hut : u = t
    · simp [hut] at hu
    · simp [hut] at hu
      exact absurd (inv.winnerUniq u t hu (Or.inr h)) hut
  · intro u _
    rfl
  · intro u hu
    rw [setPC_pcs] at hu
    by_cases hut : u = t
    · simp [hut] at hu
    · simp [hut] at hu
      exact absurd (inv.winnerUniq u t (Or.inl hu) (Or.inr h)) hut
  · intro u hu
    rw [setPC_pcs] at hu
    by_cases hut : u = t
    · simp [hut] at hu
    · simp [hut] at hu
      exact absurd (inv.winnerUniq u t (Or.inr hu) (Or.inr h)) hut
  · intro hx
    cases hx
  · intro _
    exact hcalls

/-- The invariant is preserved by every machine step. -/
theorem machineInv_step (cfg : Option Nat) (t : Nat) (s s1 : Sys)
    (inv : MachineInv cfg s) (st : Step t s s1) : MachineInv cfg s1 := by
  cases st with
  | loadInit h hi =>
    exact machineInv_setPC cfg s t PC.done inv (by decide) (by decide) fun _ => hi
  | loadNotInit h hi =>
    exact machineInv_setPC cfg s t PC.atCAS inv (by decide) (by decide)
      fun hx => absurd hx (by decide)
  | casWin h hi => exact machineInv_casWin cfg s t inv hi
  | casLose h hi =>
    exact machineInv_setPC cfg s t PC.spinWait inv (by decide) (by decide)
      fun hx => absurd hx (by decide)
  | osInitOk h => exact machineInv_osInitOk cfg s t inv h
  | osInitPanic h => exact machineInv_osInitPanic cfg s t inv h
  | storeInit h => exact machineInv_storeInit cfg s t inv h
  | spinSeeInit h hi =>
    exact machineInv_setPC cfg s t PC.done inv (by decide) (by decide) fun _ => hi
  | spinSeePoison h hi =>
    exact machineInv_setPC cfg s t PC.panicked inv (by decide) (by decide)
      fun hx => absurd hx (by decide)
  | spinAgain h h1 h2 => exact inv

/-- The invariant holds at a freshly constructed lock. -/
theorem machineInv_base (cfg : Option Nat) (c : CriticalStatic)
    (hc : c.init_spin_count = cfg) (h1 : c.init = InitState.uninitialized)
    (h2 : c.inner.critical.initCalls = []) : MachineInv cfg (sys0 c) := by
  refine ⟨hc, ?_, ?_, ?_, ?_, ?_, ?_, ?_, ?_, ?_, ?_, ?_⟩
  · show (0 : Nat) ≤ 1
    omega
  · constructor
    · intro _; rfl
    · intro _; exact h1
  · intro u hu
    rcases hu with hu | hu <;> cases hu
  · intro u v hu hv
    rcases hu with hu | hu <;> cases hu
  · intro u hu
    cases hu
  · intro u hu
    cases hu
  · intro u hu
    cases hu
  · show c.inner.critical.initCalls.length ≤ 1
    rw [h2]; simp
  · intro x hx
    have hx2 : x ∈ c.inner.critical.initCalls := hx
    rw [h2] at hx2
    cases hx2
  · intro _
    exact h2
  · intro hx
    have hx2 : c.init = InitState.initialized := hx
    rw [h1] at hx2; cases hx2

/-- Every reachable state of the init-once machine satisfies the
invariant. -/
theorem machineInv_reaches (cfg : Option Nat) (s : Sys)
    (h : Reaches cfg s) : MachineInv cfg s := by
  induction h with
  | baseNew => exact machineInv_base none CriticalStatic.new rfl rfl rfl
  | baseSpin sc =>
    exact machineInv_base (some sc) (CriticalStatic.with_spin_count sc) rfl rfl rfl
  | step cfg t s s1 _ hst ih => exact machineInv_step cfg t s s1 ih hst

/-- C1: every public safe operation of the Static Lock runs the
lazy-initialization step first (so a public operation on a POISONED lock
fails in the init check before touching the OS object), and across any
number of concurrent callers at most one compare-exchange is ever won and
at most one OS initialization attempt ever runs, always with the
configured spin count; once the state is INITIALIZED exactly one attempt
has run; a thread proceeds (`done`) only after observing INITIALIZED; and
a loser busy-waiting in the spin loop exits it only by observing
INITIALIZED (proceeding) or POISONED (panicking). -/
theorem criticalStatic_init_once_exactly_one (cfg : Option Nat) (s : Sys)
    (h : Reaches cfg s) :
    s.stat.inner.critical.initCalls.length ≤ 1 ∧
    (∀ c ∈ s.stat.inner.critical.initCalls, c = cfg) ∧
    s.attempts ≤ 1 ∧
    (s.stat.init = InitState.initialized →
      s.stat.inner.critical.initCalls = [cfg] ∧ s.attempts = 1) ∧
    (∀ t, s.pcs t = PC.done → s.stat.init = InitState.initialized) ∧
    (∀ t s1, Step t s s1 → s.pcs t = PC.spinWait →
      (s.stat.init = InitState.initialized ∧ s1.pcs t = PC.done) ∨
      (s.stat.init = InitState.poisoned ∧ s1.pcs t = PC.panicked) ∨
      s1.pcs t = PC.spinWait) ∧
    (∀ (tid r n : Nat) (st : CriticalStatic), st.init = InitState.poisoned →
      CriticalStatic.enter tid r st
          = some (Except.error ("Critical Section init failed", st)) ∧
      CriticalStatic.try_enter tid r st
          = some (Except.error ("Critical Section init failed", st)) ∧
      CriticalStatic.set_spin_count n r st
          = some (Except.error ("Critical Section init failed", st)) ∧
      CriticalStatic.get_ref r st
          = some (Except.error ("Critical Section init failed", st))) := by
  have inv := machineInv_reaches cfg s h
  refine ⟨inv.callsLen, inv.callsCfg, inv.attemptsLe, ?_, inv.doneInit, ?_, ?_⟩
  · intro hinit
    refine ⟨inv.callsInit hinit, ?_⟩
    have hle := inv.attemptsLe
    have hne : s.attempts ≠ 0 := by
      intro h0
      have hx := inv.attemptsZero.mpr h0
      rw [hinit] at hx; cases hx
    omega
  · intro t s1 st hspin
    cases st with
    | loadInit h2 hi => rw [hspin] at h2; cases h2
    | loadNotInit h2 hi => rw [hspin] at h2; cases h2
    | casWin h2 hi => rw [hspin] at h2; cases h2
    | casLose h2 hi => rw [hspin] at h2; cases h2
    | osInitOk h2 => rw [hspin] at h2; cases h2
    | osInitPanic h2 => rw [hspin] at h2; cases h2
    | storeInit h2 => rw [hspin] at h2; cases h2
    | spinSeeInit h2 hi =>
      exact Or.inl ⟨hi, by rw [setPC_pcs]; simp⟩
    | spinSeePoison h2 hi =>
      exact Or.inr (Or.inl ⟨hi, by rw [setPC_pcs]; simp⟩)
    | spinAgain h2 h3 h4 => exact Or.inr (Or.inr hspin)
  · intro tid r n st hst
    refine ⟨?_, ?_, ?_, ?_⟩ <;>
      simp [CriticalStatic.enter, CriticalStatic.try_enter,
        CriticalStatic.set_spin_count, CriticalStatic.get_ref,
        CriticalStatic.init_once, hst]

/-- C1 witness: a full winner execution (load, won compare-exchange, OS
init with spin count 7, release store) reaching INITIALIZED. -/
theorem criticalStatic_init_once_exactly_one_witness :
    demoSys4.stat.inner.critical.initCalls.length ≤ 1 ∧
    (∀ c ∈ demoSys4.stat.inner.critical.initCalls, c = some 7) ∧
    demoSys4.attempts ≤ 1 ∧
    (demoSys4.stat.init = InitState.initialized →
      demoSys4.stat.inner.critical.initCalls = [some 7] ∧
      demoSys4.attempts = 1) ∧
    (∀ t, demoSys4.pcs t = PC.done →
      demoSys4.stat.init = InitState.initialized) ∧
    (∀ t s1, Step t demoSys4 s1 → demoSys4.pcs t = PC.spinWait →
      (demoSys4.stat.init = InitState.initialized ∧ s1.pcs t = PC.done) ∨
      (demoSys4.stat.init = InitState.poisoned ∧ s1.pcs t = PC.panicked) ∨
      s1.pcs t = PC.spinWait) ∧
    (∀ (tid r n : Nat) (st : CriticalStatic), st.init = InitState.poisoned →
      CriticalStatic.enter tid r st
          = some (Except.error ("Critical Section init failed", st)) ∧
      CriticalStatic.try_enter tid r st
          = some (Except.error ("Critical Section init failed", st)) ∧
      CriticalStatic.set_spin_count n r st
          = some (Except.error ("Critical Section init failed", st)) ∧
      CriticalStatic.get_ref r st
          = some (Except.error ("Critical Section init failed", st))) := by
  refine criticalStatic_init_once_exactly_one (some 7) demoSys4 ?_
  refine Reaches.step (some 7) 0 demoSys3 demoSys4 ?_ (Step.storeInit 0 demoSys3 rfl)
  refine Reaches.step (some 7) 0 demoSys2 demoSys3 ?_ (Step.osInitOk 0 demoSys2 rfl)
  refine Reaches.step (some 7) 0 demoSys1 demoSys2 ?_ (Step.casWin 0 demoSys1 rfl rfl)
  refine Reaches.step (some 7) 0 demoSys0 demoSys1 ?_
    (Step.loadNotInit 0 demoSys0 rfl (by decide))
  exact Reaches.baseSpin 7

/-- C3: the POISONED state is terminal for the safe API: no machine step
leaves it; the initializing thread's unwind (the only alternative to
reaching the release store) makes the state POISONED; a spin-waiting
thread that observes POISONED panics (it cannot keep spinning); and in a
POISONED reachable state no thread has proceeded past initialization. -/
theorem criticalStatic_poisoned_terminal (cfg : Option Nat) (s : Sys)
    (h : Reaches cfg s) :
    (∀ t s1, Step t s s1 → s.stat.init = InitState.poisoned →
      s1.stat.init = InitState.poisoned) ∧
    (∀ t s1, Step t s s1 → s.pcs t = PC.atOsInit →
      (s1.pcs t = PC.atStore ∧ s1.stat.init = s.stat.init) ∨
      (s1.pcs t = PC.panicked ∧ s1.stat.init = InitState.poisoned)) ∧
    (∀ t s1, Step t s s1 → s.pcs t = PC.spinWait →
      s.stat.init = InitState.poisoned → s1.pcs t = PC.panicked) ∧
    (s.stat.init = InitState.poisoned → ∀ t, s.pcs t ≠ PC.done) := by
  have inv := machineInv_reaches cfg s h
  refine ⟨?_, ?_, ?_, ?_⟩
  · intro t s1 st hp
    cases st with
    | loadInit h2 hi => exact hp
    | loadNotInit h2 hi => exact hp
    | casWin h2 hi => rw [hp] at hi; cases hi
    | casLose h2 hi => exact hp
    | osInitOk h2 => exact hp
    | osInitPanic h2 => rfl
    | storeInit h2 =>
      have hw := inv.winnerInit t (Or.inr h2)
      rw [hp] at hw; cases hw
    | spinSeeInit h2 hi => exact hp
    | spinSeePoison h2 hi => exact hp
    | spinAgain h2 h3 h4 => exact hp
  · intro t s1 st hpc
    cases st with
    | loadInit h2 hi => rw [hpc] at h2; cases h2
    | loadNotInit h2 hi => rw [hpc] at h2; cases h2
    | casWin h2 hi => rw [hpc] at h2; cases h2
    | casLose h2 hi => rw [hpc] at h2; cases h2
    | osInitOk h2 =>
      refine Or.inl ⟨?_, rfl⟩
      rw [setPC_pcs]; simp
    | osInitPanic h2 =>
      refine Or.inr ⟨?_, rfl⟩
      rw [setPC_pcs]; simp
    | storeInit h2 => rw [hpc] at h2; cases h2
    | spinSeeInit h2 hi => rw [hpc] at h2; cases h2
    | spinSeePoison h2 hi => rw [hpc] at h2; cases h2
    | spinAgain h2 h3 h4 => rw [hpc] at h2; cases h2
  · intro t s1 st hpc hp
    cases st with
    | loadInit h2 hi => rw [hpc] at h2; cases h2
    | loadNotInit h2 hi => rw [hpc] at h2; cases h2
    | casWin h2 hi => rw [hpc] at h2; cases h2
    | casLose h2 hi => rw [hpc] at h2; cases h2
    | osInitOk h2 => rw [hpc] at h2; cases h2
    | osInitPanic h2 => rw [hpc] at h2; cases h2
    | storeInit h2 => rw [hpc] at h2; cases h2
    | spinSeeInit h2 hi => rw [hp] at hi; cases hi
    | spinSeePoison h2 hi => rw [setPC_pcs]; simp
    | spinAgain h2 h3 h4 => exact absurd hp h4
  · intro hp t hdone
    have hd := inv.doneInit t hdone
    rw [hp] at hd; cases hd

/-- C3 witness: a run where the initializing thread unwinds, reaching the
POISONED state. -/
theorem criticalStatic_poisoned_terminal_witness :
    (∀ t s1, Step t demoPoisonSys s1 →
      demoPoisonSys.stat.init = InitState.poisoned →
      s1.stat.init = InitState.poisoned) ∧
    (∀ t s1, Step t demoPoisonSys s1 → demoPoisonSys.pcs t = PC.atOsInit →
      (s1.pcs t = PC.atStore ∧ s1.stat.init = demoPoisonSys.stat.init) ∨
      (s1.pcs t = PC.panicked ∧ s1.stat.init = InitState.poisoned)) ∧
    (∀ t s1, Step t demoPoisonSys s1 → demoPoisonSys.pcs t = PC.spinWait →
      demoPoisonSys.stat.init = InitState.poisoned →
      s1.pcs t = PC.panicked) ∧
    (demoPoisonSys.stat.init = InitState.poisoned →
      ∀ t, demoPoisonSys.pcs t ≠ PC.done) := by
  refine criticalStatic_poisoned_terminal (some 7) demoPoisonSys ?_
  refine Reaches.step (some 7) 0 demoSys2 demoPoisonSys ?_
    (Step.osInitPanic 0 demoSys2 rfl)
  refine Reaches.step (some 7) 0 demoSys1 demoSys2 ?_ (Step.casWin 0 demoSys1 rfl rfl)
  refine Reaches.step (some 7) 0 demoSys0 demoSys1 ?_
    (Step.loadNotInit 0 demoSys0 rfl (by decide))
  exact Reaches.baseSpin 7

/-- C7: once the Static Lock is initialized, `enter`, `try_enter` and
`set_spin_count` through the copyable Init typestate reference produce
exactly the results and state effects of the same operations on the
Static Lock itself, whose only extra work is the (now trivial)
initialization-state check; `get_ref` hands back the lock unchanged. -/
theorem init_ref_ops_equiv_static_ops (tid r n : Nat) (s : CriticalStatic)
    (h : s.init = InitState.initialized) :
    CriticalStatic.enter tid r s = (CriticalStaticRef.enter tid s).map Except.ok ∧
    CriticalStatic.try_enter tid r s
        = some (Except.ok (CriticalStaticRef.try_enter tid s)) ∧
    CriticalStatic.set_spin_count n r s
        = some (Except.ok (CriticalStaticRef.set_spin_count n s)) ∧
    CriticalStatic.get_ref r s = some (Except.ok s) := by
  have hi : s.init_once r = some (Except.ok s) := by
    simp [CriticalStatic.init_once, h]
  refine ⟨?_, ?_, ?_, ?_⟩
  · cases he : osEnter tid s.inner.critical <;>
      simp [CriticalStatic.enter, CriticalStaticRef.enter, hi, he]
  · by_cases h0 : (osTryEnter tid s.inner.critical).1 = 0 <;>
      simp [CriticalStatic.try_enter, CriticalStaticRef.try_enter, hi, h0]
  · simp [CriticalStatic.set_spin_count, CriticalStaticRef.set_spin_count, hi]
  · simp [CriticalStatic.get_ref, hi]

/-- C7 witness: concrete instance on an initialized static lock. -/
theorem init_ref_ops_equiv_static_ops_witness :
    CriticalStatic.enter 0 1 demoInitStatic
        = (CriticalStaticRef.enter 0 demoInitStatic).map Except.ok ∧
    CriticalStatic.try_enter 0 1 demoInitStatic
        = some (Except.ok (CriticalStaticRef.try_enter 0 demoInitStatic)) ∧
    CriticalStatic.set_spin_count 4 1 demoInitStatic
        = some (Except.ok (CriticalStaticRef.set_spin_count 4 demoInitStatic)) ∧
    CriticalStatic.get_ref 1 demoInitStatic = some (Except.ok demoInitStatic) :=
  init_ref_ops_equiv_static_ops 0 1 4 demoInitStatic rfl

/-- C8: `try_enter` returns `None` exactly when the OS try-enter call
reports failure (returns zero), which happens exactly when the lock is
held by another thread; otherwise it returns `Some` guard on the entered
object.  Stated for the OS call, the Shared Lock, the Static Lock (once
initialized) and the Init typestate reference. -/
theorem try_enter_none_iff_held_by_other (tid r : Nat)
    (s : CriticalSection) (st : CriticalStatic)
    (h : st.init = InitState.initialized) :
    ((osTryEnter tid s.inner.critical).1 = 0 ↔
      (∃ o, s.inner.critical.owner = some o ∧ o ≠ tid)) ∧
    ((CriticalSection.try_enter tid s).1 = none ↔
      (∃ o, s.inner.critical.owner = some o ∧ o ≠ tid)) ∧
    ((CriticalSection.try_enter tid s).1 = some () →
      (CriticalSection.try_enter tid s).2.inner.critical.owner = some tid) ∧
    (CriticalStatic.try_enter tid r st
        = some (Except.ok (CriticalStaticRef.try_enter tid st))) ∧
    ((CriticalStaticRef.try_enter tid st).1 = none ↔
      (∃ o, st.inner.critical.owner = some o ∧ o ≠ tid)) := by
  have key : ∀ os : OsCritSec,
      ((osTryEnter tid os).1 = 0 ↔ (∃ o, os.owner = some o ∧ o ≠ tid)) := by
    intro os
    cases ho : os.owner with
    | none => simp [osTryEnter, ho]
    | some o =>
      by_cases hot : o = tid
      · simp [osTryEnter, ho, hot]
      · simp [osTryEnter, ho, hot]
  have k := key s.inner.critical
  refine ⟨k, ?_, ?_, ?_, ?_⟩
  · by_cases h0 : (osTryEnter tid s.inner.critical).1 = 0
    · simp [CriticalSection.try_enter, h0]
      exact k.mp h0
    · simp [CriticalSection.try_enter, h0]
      intro o ho
      by_contra hot
      exact h0 (k.mpr ⟨o, ho, hot⟩)
  · intro hsome
    by_cases h0 : (osTryEnter tid s.inner.critical).1 = 0
    · simp [CriticalSection.try_enter, h0] at hsome
    · cases ho : s.inner.critical.owner with
      | none => simp [CriticalSection.try_enter, osTryEnter, ho]
      | some o =>
        by_cases hot : o = tid
        · simp [CriticalSection.try_enter, osTryEnter, ho, hot]
        · exact absurd (k.mpr ⟨o, ho, hot⟩) h0
  · have hi : st.init_once r = some (Except.ok st) := by
      simp [CriticalStatic.init_once, h]
    by_cases h0 : (osTryEnter tid st.inner.critical).1 = 0 <;>
      simp [CriticalStatic.try_enter, CriticalStaticRef.try_enter, hi, h0]
  · have k2 := key st.inner.critical
    by_cases h0 : (osTryEnter tid st.inner.critical).1 = 0
    · simp [CriticalStaticRef.try_enter, h0]
      exact k2.mp h0
    · simp [CriticalStaticRef.try_enter, h0]
      intro o ho
      by_contra hot
      exact h0 (k2.mpr ⟨o, ho, hot⟩)

/-- C8 witness: thread 0 against a lock held by thread 5 (`None`), and
the initialized static lock (free, so `Some`). -/
theorem try_enter_none_iff_held_by_other_witness :
    ((osTryEnter 0 demoHeldCS.inner.critical).1 = 0 ↔
      (∃ o, demoHeldCS.inner.critical.owner = some o ∧ o ≠ 0)) ∧
    ((CriticalSection.try_enter 0 demoHeldCS).1 = none ↔
      (∃ o, demoHeldCS.inner.critical.owner = some o ∧ o ≠ 0)) ∧
    ((CriticalSection.try_enter 0 demoHeldCS).1 = some () →
      (CriticalSection.try_enter 0 demoHeldCS).2.inner.critical.owner = some 0) ∧
    (CriticalStatic.try_enter 0 1 demoInitStatic
        = some (Except.ok (CriticalStaticRef.try_enter 0 demoInitStatic))) ∧
    ((CriticalStaticRef.try_enter 0 demoInitStatic).1 = none ↔
      (∃ o, demoInitStatic.inner.critical.owner = some o ∧ o ≠ 0)) :=
  try_enter_none_iff_held_by_other 0 1 demoHeldCS demoInitStatic rfl

/-- C10: the unsafe `delete()` operations (on the Static Lock and on the
Init typestate reference, which perform the same OS delete call) leave
the atomic initialization-state word and the poison flag unchanged; a
lock that was INITIALIZED still reads INITIALIZED, so `init_once` returns
immediately and performs no new OS initialization call. -/
theorem delete_preserves_init_and_poison (r : Nat) (s : CriticalStatic) :
    (CriticalStatic.delete s).init = s.init ∧
    (CriticalStatic.delete s).inner.poison = s.inner.poison ∧
    CriticalStaticRef.delete s = CriticalStatic.delete s ∧
    (CriticalStatic.delete s).inner.critical.deleteCalls
        = s.inner.critical.deleteCalls + 1 ∧
    (s.init = InitState.initialized →
      (CriticalStatic.delete s).init = InitState.initialized ∧
      (CriticalStatic.delete s).init_once r
          = some (Except.ok (CriticalStatic.delete s)) ∧
      (CriticalStatic.delete s).inner.critical.initCalls
          = s.inner.critical.initCalls) := by
  refine ⟨rfl, rfl, rfl, rfl, ?_⟩
  intro h
  refine ⟨h, ?_, rfl⟩
  simp [CriticalStatic.init_once, CriticalStatic.delete, h]

/-- C10 witness: deleting the initialized static lock. -/
theorem delete_preserves_init_and_poison_witness :
    (CriticalStatic.delete demoInitStatic).init = demoInitStatic.init ∧
    (CriticalStatic.delete demoInitStatic).inner.poison
        = demoInitStatic.inner.poison ∧
    CriticalStaticRef.delete demoInitStatic
        = CriticalStatic.delete demoInitStatic ∧
    (CriticalStatic.delete demoInitStatic).inner.critical.deleteCalls
        = demoInitStatic.inner.critical.deleteCalls + 1 ∧
    (demoInitStatic.init = InitState.initialized →
      (CriticalStatic.delete demoInitStatic).init = InitState.initialized ∧
      (CriticalStatic.delete demoInitStatic).init_once 1
          = some (Except.ok (CriticalStatic.delete demoInitStatic)) ∧
      (CriticalStatic.delete demoInitStatic).inner.critical.initCalls
          = demoInitStatic.inner.critical.initCalls) :=
  delete_preserves_init_and_poison 1 demoInitStatic

/-- C6: the unsafe `init()` / `init_with_spin_count()` escape hatches
clear the poison flag unconditionally and re-run OS initialization, so
the lock no longer reports poison.  `init()` (identical to the Uninit
typestate reference's `init()`) leaves the atomic init word untouched;
`init_with_spin_count()` additionally ends in `get_ref()`, i.e.
`init_once`: on an INITIALIZED word (the state of any lock that was
poisoned while in use) it returns at once and the safe operations use
the lock; on a POISONED word it panics (poison flag already cleared);
on an UNINITIALIZED word it performs a second OS initialization and
stores INITIALIZED.  The Uninit reference's variants clear poison and
re-initialize with no init-word check. -/
theorem unsafe_init_clears_poison (sc r r2 : Nat) (s : CriticalStatic)
    (hr : r ≠ 0) :
    (∃ s1, CriticalStatic.unsafe_init r s = Except.ok s1 ∧
      EnteredCritical.is_poisoned s1.inner = false ∧ s1.init = s.init ∧
      (s.init = InitState.initialized →
        s1.init_once r2 = some (Except.ok s1))) ∧
    (s.init = InitState.initialized →
      ∃ s1, CriticalStatic.unsafe_init_with_spin_count sc r s
          = some (Except.ok s1) ∧
        EnteredCritical.is_poisoned s1.inner = false ∧
        s1.init = InitState.initialized ∧
        s1.init_once r2 = some (Except.ok s1)) ∧
    (s.init = InitState.poisoned →
      ∃ e, CriticalStatic.unsafe_init_with_spin_count sc r s
          = some (Except.error e) ∧
        e.1 = "Critical Section init failed" ∧
        EnteredCritical.is_poisoned e.2.inner = false) ∧
    (s.init = InitState.uninitialized →
      ∃ s1, CriticalStatic.unsafe_init_with_spin_count sc r s
          = some (Except.ok s1) ∧
        EnteredCritical.is_poisoned s1.inner = false ∧
        s1.init = InitState.initialized ∧
        s1.inner.critical.initCalls
            = s.inner.critical.initCalls ++ [some sc, s.init_spin_count]) ∧
    (∃ s1, CriticalStaticRef.init r s = Except.ok s1 ∧
      EnteredCritical.is_poisoned s1.inner = false ∧ s1.init = s.init) ∧
    (∃ s1, CriticalStaticRef.init_with_spin_count sc s = Except.ok s1 ∧
      EnteredCritical.is_poisoned s1.inner = false ∧ s1.init = s.init) ∧
    CriticalStaticRef.init r s = CriticalStatic.unsafe_init r s := by
  refine ⟨⟨{ s with
    inner := { critical := osInitCall none s.inner.critical, poison := false } },
    ?_, rfl, rfl, ?_⟩, ?_, ?_, ?_,
    ⟨{ s with
    inner := { critical := osInitCall none s.inner.critical, poison := false } },
    ?_, rfl, rfl⟩,
    ⟨{ s with
    inner := { critical := osInitCall (some sc) s.inner.critical, poison := false } },
    ?_, rfl, rfl⟩, rfl⟩
  · simp [CriticalStatic.unsafe_init,
      PoisonableCriticalSection.clear_poison_unsynced, init_cs, hr, Except.map]
  · intro h
    simp [CriticalStatic.init_once, h]
  · intro h
    refine ⟨{ s with
      inner := { critical := osInitCall (some sc) s.inner.critical, poison := false } },
      ?_, rfl, h, ?_⟩
    · simp [CriticalStatic.unsafe_init_with_spin_count,
        PoisonableCriticalSection.clear_poison_unsynced,
        init_cs_with_spin_count, c_init_cs_with_spin_count_result,
        CriticalStatic.get_ref, CriticalStatic.init_once, h]
    · simp [CriticalStatic.init_once, h]
  · intro h
    refine ⟨("Critical Section init failed", { s with
      inner := { critical := osInitCall (some sc) s.inner.critical, poison := false } }),
      ?_, rfl, rfl⟩
    simp [CriticalStatic.unsafe_init_with_spin_count,
      PoisonableCriticalSection.clear_poison_unsynced,
      init_cs_with_spin_count, c_init_cs_with_spin_count_result,
      CriticalStatic.get_ref, CriticalStatic.init_once, h]
  · intro h
    cases hc : s.init_spin_count with
    | some sc2 =>
      refine ⟨{ s with
        init := InitState.initialized,
        inner := { critical := osInitCall (some sc2) (osInitCall (some sc) s.inner.critical), poison := false } },
        ?_, rfl, rfl, ?_⟩
      · simp [CriticalStatic.unsafe_init_with_spin_count,
          PoisonableCriticalSection.clear_poison_unsynced,
          init_cs_with_spin_count, c_init_cs_with_spin_count_result,
          CriticalStatic.get_ref, CriticalStatic.init_once, h, hc]
      · show (osInitCall (some sc2) (osInitCall (some sc) s.inner.critical)).initCalls
            = s.inner.critical.initCalls ++ [some sc, some sc2]
        simp [osInitCall]
    | none =>
      refine ⟨{ s with
        init := InitState.initialized,
        inner := { critical := osInitCall none (osInitCall (some sc) s.inner.critical), poison := false } },
        ?_, rfl, rfl, ?_⟩
      · simp [CriticalStatic.unsafe_init_with_spin_count,
          PoisonableCriticalSection.clear_poison_unsynced,
          init_cs_with_spin_count, c_init_cs_with_spin_count_result,
          CriticalStatic.get_ref, CriticalStatic.init_once, init_cs, h, hc, hr]
      · show (osInitCall none (osInitCall (some sc) s.inner.critical)).initCalls
            = s.inner.critical.initCalls ++ [some sc, none]
        simp [osInitCall]
  · simp [CriticalStaticRef.init,
      PoisonableCriticalSection.clear_poison_unsynced, init_cs, hr, Except.map]
  · simp [CriticalStaticRef.init_with_spin_count,
      PoisonableCriticalSection.clear_poison_unsynced,
      init_cs_with_spin_count, c_init_cs_with_spin_count_result, Except.map]

/-- C6 witness: re-initializing an initialized lock whose poison flag is
set. -/
theorem unsafe_init_clears_poison_witness :
    (∃ s1, CriticalStatic.unsafe_init 1 demoPoisonedStatic = Except.ok s1 ∧
      EnteredCritical.is_poisoned s1.inner = false ∧
      s1.init = demoPoisonedStatic.init ∧
      (demoPoisonedStatic.init = InitState.initialized →
        s1.init_once 1 = some (Except.ok s1))) ∧
    (demoPoisonedStatic.init = InitState.initialized →
      ∃ s1, CriticalStatic.unsafe_init_with_spin_count 3 1 demoPoisonedStatic
          = some (Except.ok s1) ∧
        EnteredCritical.is_poisoned s1.inner = false ∧
        s1.init = InitState.initialized ∧
        s1.init_once 1 = some (Except.ok s1)) ∧
    (demoPoisonedStatic.init = InitState.poisoned →
      ∃ e, CriticalStatic.unsafe_init_with_spin_count 3 1 demoPoisonedStatic
          = some (Except.error e) ∧
        e.1 = "Critical Section init failed" ∧
        EnteredCritical.is_poisoned e.2.inner = false) ∧
    (demoPoisonedStatic.init = InitState.uninitialized →
      ∃ s1, CriticalStatic.unsafe_init_with_spin_count 3 1 demoPoisonedStatic
          = some (Except.ok s1) ∧
        EnteredCritical.is_poisoned s1.inner = false ∧
        s1.init = InitState.initialized ∧
        s1.inner.critical.initCalls
            = demoPoisonedStatic.inner.critical.initCalls
                ++ [some 3, demoPoisonedStatic.init_spin_count]) ∧
    (∃ s1, CriticalStaticRef.init 1 demoPoisonedStatic = Except.ok s1 ∧
      EnteredCritical.is_poisoned s1.inner = false ∧
      s1.init = demoPoisonedStatic.init) ∧
    (∃ s1, CriticalStaticRef.init_with_spin_count 3 demoPoisonedStatic
        = Except.ok s1 ∧
      EnteredCritical.is_poisoned s1.inner = false ∧
      s1.init = demoPoisonedStatic.init) ∧
    CriticalStaticRef.init 1 demoPoisonedStatic
        = CriticalStatic.unsafe_init 1 demoPoisonedStatic :=
  unsafe_init_clears_poison 3 1 1 demoPoisonedStatic (by decide)

/-- Helper for C9: no operation other than a guard dropped during a panic
can turn the poison flag on. -/
theorem applyOp_poison_false (op : LockOp) (u : PoisonableCriticalSection)
    (hu : u.poison = false) (hop : op ≠ LockOp.guardDrop true) :
    (applyOp op u).poison = false := by
  cases op with
  | enterOp tid =>
    cases he : osEnter tid u.critical <;> simp [applyOp, he, hu]
  | tryEnterOp tid => simp [applyOp, hu]
  | setSpinOp n => simp [applyOp, hu]
  | isPoisonedOp => simp [applyOp, hu]
  | clearPoisonOp => simp [applyOp, EnteredCritical.clear_poison]
  | guardDrop p =>
    cases p with
    | false => simp [applyOp, EnteredCritical.dropGuard, hu]
    | true => exact absurd rfl hop

/-- Helper for C9: the poison flag stays off across any sequence of
operations that contains no panicking guard drop. -/
theorem applyOps_poison_false (ops : List LockOp) :
    ∀ u : PoisonableCriticalSection, u.poison = false →
      (∀ op ∈ ops, op ≠ LockOp.guardDrop true) →
      (applyOps ops u).poison = false := by
  induction ops with
  | nil =>
    intro u hu _
    simpa [applyOps] using hu
  | cons op rest ih =>
    intro u hu hops
    have h1 : op ≠ LockOp.guardDrop true := hops op (by simp)
    have h2 : ∀ o ∈ rest, o ≠ LockOp.guardDrop true :=
      fun o ho => hops o (by simp [ho])
    have e : applyOps (op :: rest) u = applyOps rest (applyOp op u) := rfl
    rw [e]
    exact ih (applyOp op u) (applyOp_poison_false op u hu h1) h2

/-- C9: `clear_poison()` makes `is_poisoned()` report false, and the flag
stays false across every subsequent operation until a guard is next
destroyed while its thread is unwinding from a panic — the only operation
that sets the poison flag, and one that always sets it. -/
theorem clear_poison_stays_false_until_panic_drop
    (s : PoisonableCriticalSection) (ops : List LockOp)
    (h : ∀ op ∈ ops, op ≠ LockOp.guardDrop true) :
    EnteredCritical.is_poisoned (EnteredCritical.clear_poison s) = false ∧
    (applyOps ops (EnteredCritical.clear_poison s)).poison = false ∧
    (∀ (op : LockOp) (u : PoisonableCriticalSection), u.poison = false →
      (applyOp op u).poison = true → op = LockOp.guardDrop true) ∧
    (∀ u : PoisonableCriticalSection,
      (applyOp (LockOp.guardDrop true) u).poison = true) := by
  refine ⟨rfl, ?_, ?_, ?_⟩
  · exact applyOps_poison_false ops (EnteredCritical.clear_poison s) rfl h
  · intro op u hu htrue
    by_cases hop : op = LockOp.guardDrop true
    · exact hop
    · have hf := applyOp_poison_false op u hu hop
      rw [hf] at htrue; cases htrue
  · intro u
    simp [applyOp, EnteredCritical.dropGuard]

/-- C9 witness: clearing a set poison flag, then entering, dropping
normally, trying, retuning the spin count. -/
theorem clear_poison_stays_false_until_panic_drop_witness :
    EnteredCritical.is_poisoned
      (EnteredCritical.clear_poison { critical := CRIT_ZEROED, poison := true })
        = false ∧
    (applyOps [LockOp.enterOp 0, LockOp.guardDrop false, LockOp.tryEnterOp 1,
        LockOp.setSpinOp 5, LockOp.clearPoisonOp]
      (EnteredCritical.clear_poison
        { critical := CRIT_ZEROED, poison := true })).poison = false ∧
    (∀ (op : LockOp) (u : PoisonableCriticalSection), u.poison = false →
      (applyOp op u).poison = true → op = LockOp.guardDrop true) ∧
    (∀ u : PoisonableCriticalSection,
      (applyOp (LockOp.guardDrop true) u).poison = true) :=
  clear_poison_stays_false_until_panic_drop
    { critical := CRIT_ZEROED, poison := true }
    [LockOp.enterOp 0, LockOp.guardDrop false, LockOp.tryEnterOp 1,
      LockOp.setSpinOp 5, LockOp.clearPoisonOp]
    (by decide)
